import Mathlib

/-
Verification development for the NOAA API wrapper (noaa_sdk/noaa.py).
The source is shallowly embedded: parsed JSON documents become the `Json`
inductive, the HTTP transport becomes an oracle `fetch : String → Json`
mapping a request path or URI to the parsed response document, and Python
exceptions become the `Err` inductive returned through `Except`.  Each
operation additionally returns the list of request paths it issued, in
order, so that claims about which requests are made can be stated.
-/

/-- Parsed JSON documents.  Numbers are modelled as integers: the embedded
code only ever compares a number against the literal 503. -/
inductive Json where
  | null
  | bool (b : Bool)
  | num (n : Int)
  | str (s : String)
  | arr (elems : List Json)
  | obj (fields : List (String × Json))

/-- First value bound to a key in an object field list (Python dicts have
unique keys; lookup of the first occurrence models dict indexing). -/
def lookupKey : List (String × Json) → String → Option Json
  | [], _ => none
  | (k, v) :: rest, key => if k = key then some v else lookupKey rest key

/-- Model of Python `doc[key]` lookup on a dict; `none` where Python would
raise KeyError.  On non-dict documents lookup yields `none`. -/
def Json.get? : Json → String → Option Json
  | .obj fields, key => lookupKey fields key
  | _, _ => none

/-- Model of Python `key in doc` for a dict document. -/
def Json.member (doc : Json) (key : String) : Bool := (doc.get? key).isSome

/-- Python exceptions raised by the embedded code, one constructor per
distinct failure site.  `keyError`/`typeError` model the untyped failures
Python produces on a missing dict key or an ill-typed operand. -/
inductive Err where
  | invalidZipCode
  | missingStationId
  | conflictingParams
  | invalidTimestamp (value : String)
  | upstreamError (status : Int) (detail : Json)
  | schemaError (msg : String)
  | responseError (doc : Json)
  | keyError (key : String)
  | typeError

/-- True exactly on the `schemaError` constructor. -/
def Err.isSchemaError : Err → Bool
  | .schemaError _ => true
  | _ => false

/-- True when a result is an error of the `schemaError` kind. -/
def resultIsSchemaError {α : Type} : Except Err α → Bool
  | .error e => e.isSchemaError
  | .ok _ => false

/-- True on `Except.ok`. -/
def exOk {α : Type} : Except Err α → Bool
  | .ok _ => true
  | .error _ => false

/-- Model of `key in params` for the `**params` keyword mappings; values
are kept in their string forms. -/
def hasKey (params : List (String × String)) (key : String) : Bool :=
  params.any (fun p => p.1 == key)

/-- Model of `params[key]` read access. -/
def getVal? : List (String × String) → String → Option String
  | [], _ => none
  | (k, v) :: rest, key => if k = key then some v else getVal? rest key

/-- Read access with a default (the default is never reached under a
`hasKey` guard). -/
def getValD (params : List (String × String)) (key dflt : String) : String :=
  (getVal? params key).getD dflt

/-- Model of `params[key] = v` for a key already present: the value is
replaced in place, preserving insertion order like a Python dict. -/
def setVal : List (String × String) → String → String → List (String × String)
  | [], _, _ => []
  | (k, v) :: rest, key, newVal =>
    if k = key then (k, newVal) :: rest else (k, v) :: setVal rest key newVal

/-- Model of urlencode on the parameter mapping.  Percent-escaping is
abstracted away: no claim depends on the escaped form, only on which
parameters appear. -/
def urlencodeSimple : List (String × String) → String
  | [] => ""
  | [(k, v)] => k ++ "=" ++ v
  | (k, v) :: rest => k ++ "=" ++ v ++ "&" ++ urlencodeSimple rest

/-- Python slicing `s[:n]`. -/
def strTake (s : String) (n : Nat) : String := ⟨s.data.take n⟩

/-- Python `s.replace(' ', 'T')`: single-character replacement. -/
def replaceSpaceT (s : String) : String :=
  ⟨s.data.map (fun c => if c = ' ' then 'T' else c)⟩

/-- Timestamp padding applied to `params['start']` in
`stations_observations` (noaa.py lines 296-304): date-only strings get
T00:00:00Z appended, space-separated date-times get the space replaced by
T and a Z appended, longer strings pass through unchanged. -/
def normalizeStart (s : String) : String :=
  if s.length < 19 then strTake s 10 ++ "T00:00:00Z"
  else if s.length < 20 then replaceSpaceT s ++ "Z"
  else s

/-- Timestamp padding applied to `params['end']` in
`stations_observations` (noaa.py lines 305-313). -/
def normalizeEnd (s : String) : String :=
  if s.length < 19 then strTake s 10 ++ "T23:59:59Z"
  else if s.length < 20 then replaceSpaceT s ++ "Z"
  else s

/-- A calendar-date shaped character list `YYYY-MM-DD`. -/
def validDateChars : List Char → Bool
  | [y1, y2, y3, y4, '-', m1, m2, '-', d1, d2] =>
    y1.isDigit && y2.isDigit && y3.isDigit && y4.isDigit &&
    m1.isDigit && m2.isDigit && d1.isDigit && d2.isDigit
  | _ => false

/-- A clock-time shaped character list `HH:MM:SS`. -/
def validTimeChars : List Char → Bool
  | [h1, h2, ':', m1, m2, ':', s1, s2] =>
    h1.isDigit && h2.isDigit && m1.isDigit && m2.isDigit &&
    s1.isDigit && s2.isDigit
  | _ => false

/-- Modelled from the spec: `UTIL.parse_param_timestamp` lives in
noaa_sdk/util.py, which is not part of the given source; per the spec a
start/end value must match one of the three accepted formats
date-time-with-seconds-and-Z, date-only, or date-with-space-separated-time,
and parsing fails otherwise. -/
def validTimestamp (s : String) : Bool :=
  let cs := s.data
  validDateChars cs ||
  (validDateChars (cs.take 10) && cs.drop 10 == 'T' :: (cs.drop 11) &&
    validTimeChars ((cs.drop 11).take 8) && cs.drop 19 == ['Z']) ||
  (validDateChars (cs.take 10) && cs.drop 10 == ' ' :: (cs.drop 11) &&
    validTimeChars (cs.drop 11))

/-- Validation and padding of one timestamp parameter, as done for
`start` and for `end` in `stations_observations`. -/
def normalizeTimestampParam (key : String) (pad : String → String)
    (params : List (String × String)) : Except Err (List (String × String)) :=
  match getVal? params key with
  | none => .ok params
  | some v =>
    if validTimestamp v then .ok (setVal params key (pad v))
    else .error (.invalidTimestamp v)

/-- The start/end handling of `stations_observations` (noaa.py lines
296-313): validate and pad `start`, then `end`. -/
def normalizeParams (params : List (String × String)) :
    Except Err (List (String × String)) :=
  match normalizeTimestampParam "start" normalizeStart params with
  | .error e => .error e
  | .ok p1 => normalizeTimestampParam "end" normalizeEnd p1

/-- The request path used by `stations_observations` when only ordinary
query parameters are supplied: the query string is appended only when more
than one parameter is present (noaa.py lines 331-334). -/
def ordinaryObservationsUri (stationId : String)
    (params2 : List (String × String)) : String :=
  if params2.length > 1 then
    "/stations/" ++ stationId ++ "/observations?" ++ urlencodeSimple params2
  else
    "/stations/" ++ stationId ++ "/observations"

/-- The method `stations_observations(station_id, **params)` of noaa.py
(lines 270-344).  Returns the response handed back to the caller plus the
list of request paths issued, in order; an error before the request means
no request is issued. -/
def stationsObservations (stationId : String) (params : List (String × String))
    (fetch : String → Json) : Except Err Json × List String :=
  if stationId = "" then (.error .missingStationId, [])
  else if hasKey params "recordId" && hasKey params "current" then
    (.error .conflictingParams, [])
  else
    match normalizeParams params with
    | .error e => (.error e, [])
    | .ok params2 =>
      if params2.length > 0 then
        if hasKey params2 "recordId" then
          (.ok (fetch ("/stations/" ++ stationId ++ "/observations/" ++
                       getValD params2 "recordId" "")),
           ["/stations/" ++ stationId ++ "/observations/" ++ getValD params2 "recordId" ""])
        else if hasKey params2 "current" then
          (.ok (fetch ("/stations/" ++ stationId ++ "/observations/current")),
           ["/stations/" ++ stationId ++ "/observations/current"])
        else
          if (fetch (ordinaryObservationsUri stationId params2)).member "features" then
            (.ok (((fetch (ordinaryObservationsUri stationId params2)).get? "features").getD Json.null),
             [ordinaryObservationsUri stationId params2])
          else
            (.error (.responseError (fetch (ordinaryObservationsUri stationId params2))),
             [ordinaryObservationsUri stationId params2])
      else
        (.ok (fetch ("/stations/" ++ stationId ++ "/observations")),
         ["/stations/" ++ stationId ++ "/observations"])

/-- Decimal digits of a natural number, most significant first; the fuel
argument only bounds the digit count. -/
def natDigitsAux : Nat → Nat → List Char → List Char
  | 0, _, acc => acc
  | fuel + 1, n, acc =>
    if n < 10 then Char.ofNat (48 + n % 10) :: acc
    else natDigitsAux fuel (n / 10) (Char.ofNat (48 + n % 10) :: acc)

/-- Decimal rendering of a natural number. -/
def natStr (n : Nat) : String := ⟨natDigitsAux (n + 1) n []⟩

/-- Decimal rendering of an integer. -/
def intStr (i : Int) : String :=
  if i < 0 then "-" ++ natStr i.natAbs else natStr i.natAbs

/-- Canonical rendering of a reduced fraction pair.  This stands in for
the Python float formatting of a coordinate: both the rounded and the
unrounded coordinate embeddings use this same rendering, so two embedded
coordinates produce the same path exactly when they are the same number. -/
def partsStr : Int × Nat → String
  | (n, 1) => intStr n
  | (n, d) => intStr n ++ "/" ++ intStr d

/-- Divide a factor `p` out of numerator and denominator as often as both
allow; the fuel bounds the iteration count. -/
def divOutAux (p : Nat) : Nat → Int × Nat → Int × Nat
  | 0, nd => nd
  | fuel + 1, (n, d) =>
    if d % p = 0 && n % (p : Int) = 0 then divOutAux p fuel (n / (p : Int), d / p)
    else (n, d)

/-- Python `round(q, 4)` scaled by ten thousand: banker's rounding of
`q * 10000` to an integer, expressed on the numerator and denominator so
that every step is plain integer arithmetic. -/
def roundHalfEven4 (q : ℚ) : Int :=
  if 2 * (q.num * 10000 - Int.ediv (q.num * 10000) (q.den : Int) * (q.den : Int)) < (q.den : Int) then
    Int.ediv (q.num * 10000) (q.den : Int)
  else if (q.den : Int) < 2 * (q.num * 10000 - Int.ediv (q.num * 10000) (q.den : Int) * (q.den : Int)) then
    Int.ediv (q.num * 10000) (q.den : Int) + 1
  else if Int.ediv (q.num * 10000) (q.den : Int) % 2 = 0 then
    Int.ediv (q.num * 10000) (q.den : Int)
  else
    Int.ediv (q.num * 10000) (q.den : Int) + 1

/-- Python `round(q, 4)` as a reduced fraction pair: the scaled integer
over ten thousand with the common factors of two and five divided out. -/
def round4Parts (q : ℚ) : Int × Nat :=
  divOutAux 5 4 (divOutAux 2 4 (roundHalfEven4 q, 10000))

/-- A coordinate exactly as passed on, as a reduced fraction pair. -/
def ratParts (q : ℚ) : Int × Nat := (q.num, q.den)

/-- The points request path of the observation path
(`get_observations_by_lat_lon`, noaa.py lines 156-157): both coordinates
are rounded to four decimal places before being embedded. -/
def obsPointsPath (lat lon : ℚ) : String :=
  "/points/" ++ partsStr (round4Parts lat) ++ "," ++ partsStr (round4Parts lon)

/-- The points request path of the forecast path (`points_forecast`,
noaa.py lines 229-231): the coordinates are embedded as passed in. -/
def forecastPointsPath (lat lon : ℚ) : String :=
  "/points/" ++ partsStr (ratParts lat) ++ "," ++ partsStr (ratParts lon)

/-- Python `station.split('/')[-1]`: the characters after the last slash. -/
def splitLastAux : List Char → List Char → List Char
  | [], acc => acc
  | c :: rest, acc =>
    if c = '/' then splitLastAux rest [] else splitLastAux rest (acc ++ [c])

/-- The trailing path segment of a station URI. -/
def lastSegment (s : String) : String := ⟨splitLastAux s.data []⟩

/-- Iteration over the features of one station response (noaa.py lines
172-176): each feature must be a dict and contributes its `properties`
sub-object (`dict.get` yields Python None, modelled as `Json.null`, when
the key is absent). -/
def extractRecords : List Json → Except Err (List Json)
  | [] => .ok []
  | Json.obj fields :: rest =>
    match extractRecords rest with
    | .error e => .error e
    | .ok more => .ok ((lookupKey fields "properties").getD Json.null :: more)
  | _ :: _ => .error .typeError

/-- The reshaping of one station response in the observation stream: a
dict response is indexed at `features` (KeyError when absent), any other
response is iterated directly. -/
def extractObservations : Json → Except Err (List Json)
  | Json.obj fields =>
    match lookupKey fields "features" with
    | none => .error (.keyError "features")
    | some (Json.arr features) => extractRecords features
    | some _ => .error .typeError
  | Json.arr features => extractRecords features
  | _ => .error .typeError

/-- Observation handling of one station entry from the station list:
extract the station id from the URI, call `stations_observations`, and
reshape the response (noaa.py lines 168-176). -/
def stationStep (params : List (String × String)) (fetch : String → Json)
    (st : Json) : Except Err (List Json) × List String :=
  match st with
  | Json.str s =>
    match stationsObservations (lastSegment s) params fetch with
    | (.error e, reqs) => (.error e, reqs)
    | (.ok resp, reqs) => (extractObservations resp, reqs)
  | _ => (.error .typeError, [])

/-- The observation records produced by one station entry (empty on a
failing entry). -/
def stepObs (params : List (String × String)) (fetch : String → Json)
    (st : Json) : List Json :=
  match (stationStep params fetch st).1 with
  | .ok records => records
  | .error _ => []

/-- The requests issued for one station entry. -/
def stepReqs (params : List (String × String)) (fetch : String → Json)
    (st : Json) : List String :=
  (stationStep params fetch st).2

/-- The station enumeration loop of `get_observations_by_lat_lon` (noaa.py
lines 165-176), run to exhaustion: the loop breaks once
`num_of_stations > 0 and num_of_stations <= index`. -/
def obsLoop (num : Int) (params : List (String × String))
    (fetch : String → Json) : List Json → Nat → Except Err (List Json) × List String
  | [], _ => (.ok [], [])
  | st :: rest, index =>
    if 0 < num ∧ num ≤ (index : Int) then (.ok [], [])
    else
      match stationStep params fetch st with
      | (.error e, reqs) => (.error e, reqs)
      | (.ok records, reqs) =>
        match obsLoop num params fetch rest (index + 1) with
        | (.error e, reqs2) => (.error e, reqs ++ reqs2)
        | (.ok more, reqs2) => (.ok (records ++ more), reqs ++ reqs2)

/-- The start/end parameter mapping assembled by
`get_observations_by_lat_lon` (noaa.py lines 150-154). -/
def obsParams (start? end? : Option String) : List (String × String) :=
  (match start? with | some v => [("start", v)] | none => []) ++
  (match end? with | some v => [("end", v)] | none => [])

/-- Everything `get_observations_by_lat_lon` does after fetching the
points document: check `properties.observationStations`, fetch the station
list resource, index its `observationStations` list, and run the station
loop (noaa.py lines 159-176). -/
def obsRunInner (params : List (String × String)) (num : Int)
    (fetch : String → Json) (pointsRes : Json) : Except Err (List Json) × List String :=
  match pointsRes.get? "properties" with
  | none => (.error (.schemaError "Error: No Observation Stations found."), [])
  | some props =>
    match props.get? "observationStations" with
    | none => (.error (.schemaError "Error: No Observation Stations found."), [])
    | some (Json.str stationsUri) =>
      match (fetch stationsUri).get? "observationStations" with
      | none => (.error (.keyError "observationStations"), [stationsUri])
      | some (Json.arr stations) =>
        ((obsLoop num params fetch stations 0).1,
         stationsUri :: (obsLoop num params fetch stations 0).2)
      | some _ => (.error .typeError, [stationsUri])
    | some _ => (.error .typeError, [])

/-- The method `get_observations_by_lat_lon` of noaa.py (lines 146-176),
with the generator run to exhaustion. -/
def getObservationsByLatLon (lat lon : ℚ) (start? end? : Option String)
    (num : Int) (fetch : String → Json) : Except Err (List Json) × List String :=
  ((obsRunInner (obsParams start? end?) num fetch (fetch (obsPointsPath lat lon))).1,
   obsPointsPath lat lon ::
     (obsRunInner (obsParams start? end?) num fetch (fetch (obsPointsPath lat lon))).2)

/-- The station prefix the loop processes: the first `num` stations when
`num` is positive, every station otherwise. -/
def processedStations (num : Int) (stations : List Json) : List Json :=
  if 0 < num then stations.take num.toNat else stations

/-- The three accepted forecast data types: `hourly`, `grid` and the
Python None default (the assert in `points_forecast` admits no others). -/
inductive DType where
  | hourly
  | grid
  | dflt
  deriving DecidableEq

/-- The upstream error marker test of `get_forecasts` (noaa.py line 93):
`'status' in res and res['status'] == 503 and 'detail' in res`. -/
def status503 (res : Json) : Bool :=
  res.member "status" &&
  (match res.get? "status" with
   | some (Json.num n) => n == 503
   | _ => false) &&
  res.member "detail"

/-- Whether `res['properties']` carries a `periods` key. -/
def propsHasPeriods (res : Json) : Bool :=
  match res.get? "properties" with
  | some props => props.member "periods"
  | none => false

/-- The projection of one validated forecast document (noaa.py lines
102-105): grid requests take `properties`, everything else takes
`properties.periods`. -/
def forecastProject (dtype : DType) (res : Json) : Json :=
  match res.get? "properties" with
  | some props =>
    if dtype = DType.grid then props else (props.get? "periods").getD Json.null
  | none => Json.null

/-- The validation loop of `get_forecasts` over the zipped data types and
fetched documents (noaa.py lines 92-105). -/
def forecastValidate : List (DType × Json) → Except Err (List Json)
  | [] => .ok []
  | (dtype, res) :: rest =>
    if status503 res then
      .error (.upstreamError 503 ((res.get? "detail").getD Json.null))
    else if !(res.member "properties") then
      .error (.schemaError "properties attribute not found. Possible response json changes")
    else if res.member "properties" = true ∧ propsHasPeriods res = false ∧ dtype ≠ DType.grid then
      .error (.schemaError "periods attribute not found. Possible response json changes")
    else
      match forecastValidate rest with
      | .error e => .error e
      | .ok others => .ok (forecastProject dtype res :: others)

/-- Whether one zipped pair passes all three validation checks of the
`get_forecasts` loop. -/
def passesValidation (dtype : DType) (res : Json) : Bool :=
  !(status503 res) && res.member "properties" &&
  (propsHasPeriods res || decide (dtype = DType.grid))

/-- The per-data-type fetch loop of `points_forecast` (noaa.py lines
234-242): each iteration re-reads `points['properties']['forecast']`
(a KeyError when either key is absent), overrides the link for hourly and
grid requests, and fetches the selected URI. -/
def pfLoop (points : Json) (fetch : String → Json) :
    List DType → Except Err (List Json) × List String
  | [] => (.ok [], [])
  | dtype :: rest =>
    match points.get? "properties" with
    | none => (.error (.keyError "properties"), [])
    | some props =>
      match props.get? "forecast" with
      | none => (.error (.keyError "forecast"), [])
      | some defaultUri =>
        match (match dtype with
               | DType.hourly =>
                 match props.get? "forecastHourly" with
                 | none => Except.error (Err.keyError "forecastHourly")
                 | some u => Except.ok u
               | DType.grid =>
                 match props.get? "forecastGridData" with
                 | none => Except.error (Err.keyError "forecastGridData")
                 | some u => Except.ok u
               | DType.dflt => Except.ok defaultUri) with
        | .error e => (.error e, [])
        | .ok (Json.str uri) =>
          match pfLoop points fetch rest with
          | (.error e, reqs) => (.error e, uri :: reqs)
          | (.ok others, reqs) => (.ok (fetch uri :: others), uri :: reqs)
        | .ok _ => (.error .typeError, [])

/-- The method `points_forecast(lat, long, data_type)` of noaa.py (lines
209-243): fetch the points document for the unrounded coordinates, then
fetch one forecast document per requested data type. -/
def pointsForecast (lat lon : ℚ) (dts : List DType)
    (fetch : String → Json) : Except Err (List Json) × List String :=
  ((pfLoop (fetch (forecastPointsPath lat lon)) fetch dts).1,
   forecastPointsPath lat lon ::
     (pfLoop (fetch (forecastPointsPath lat lon)) fetch dts).2)

/-- The method `get_forecasts(postal_code, country, data_type)` of noaa.py
(lines 68-109).  Geocoding is an external collaborator, so the resolved
coordinate (or the lookup failure) is passed in as `geo`. -/
def getForecasts (geo : Option (ℚ × ℚ)) (dts : List DType)
    (fetch : String → Json) : Except Err (List Json) × List String :=
  match geo with
  | none => (.error .invalidZipCode, [])
  | some (lat, lon) =>
    match pointsForecast lat lon dts fetch with
    | (.error e, reqs) => (.error e, reqs)
    | (.ok results, reqs) => (forecastValidate (dts.zip results), reqs)

/-- The method `active_alerts(count, **params)` of noaa.py (lines
494-531). -/
def activeAlerts (count : Bool) (params : List (String × String))
    (fetch : String → Json) : Json × List String :=
  if count then (fetch "/alerts/count", ["/alerts/count"])
  else if hasKey params "zone_id" then
    (fetch ("/alerts/active/zone/" ++ getValD params "zone_id" ""),
     ["/alerts/active/zone/" ++ getValD params "zone_id" ""])
  else if hasKey params "area" then
    (fetch ("/alerts/active/area/" ++ getValD params "area" ""),
     ["/alerts/active/area/" ++ getValD params "area" ""])
  else if hasKey params "region" then
    (fetch ("/alerts/active/region/" ++ getValD params "region" ""),
     ["/alerts/active/region/" ++ getValD params "region" ""])
  else (fetch "/alerts/active", ["/alerts/active"])

lemma hasKey_setVal (params : List (String × String)) (key newVal k : String) :
    hasKey (setVal params key newVal) k = hasKey params k := by
  induction params with
  | nil => rfl
  | cons p rest ih =>
    obtain ⟨pk, pv⟩ := p
    simp only [setVal]
    by_cases h : pk = key
    · simp [h, hasKey]
    · simp only [if_neg h, hasKey, List.any_cons] at ih ⊢
      rw [ih]

lemma length_setVal (params : List (String × String)) (key newVal : String) :
    (setVal params key newVal).length = params.length := by
  induction params with
  | nil => rfl
  | cons p rest ih =>
    obtain ⟨pk, pv⟩ := p
    simp only [setVal]
    by_cases h : pk = key
    · simp [h]
    · simp [h, ih]

lemma hasKey_pos (params : List (String × String)) (k : String)
    (h : hasKey params k = true) : 0 < params.length := by
  cases params with
  | nil => simp [hasKey] at h
  | cons p rest => simp

lemma normalizeTimestampParam_hasKey (key : String) (pad : String → String)
    (params p2 : List (String × String)) (k : String)
    (h : normalizeTimestampParam key pad params = .ok p2) :
    hasKey p2 k = hasKey params k := by
  unfold normalizeTimestampParam at h
  cases hv : getVal? params key with
  | none => rw [hv] at h; cases h; rfl
  | some v =>
    rw [hv] at h
    by_cases hts : validTimestamp v = true
    · simp [hts] at h
      subst h
      exact hasKey_setVal params key (pad v) k
    · simp [hts] at h

lemma normalizeTimestampParam_length (key : String) (pad : String → String)
    (params p2 : List (String × String))
    (h : normalizeTimestampParam key pad params = .ok p2) :
    p2.length = params.length := by
  unfold normalizeTimestampParam at h
  cases hv : getVal? params key with
  | none => rw [hv] at h; cases h; rfl
  | some v =>
    rw [hv] at h
    by_cases hts : validTimestamp v = true
    · simp [hts] at h
      subst h
      exact length_setVal params key (pad v)
    · simp [hts] at h

lemma normalizeParams_hasKey (params p2 : List (String × String)) (k : String)
    (h : normalizeParams params = .ok p2) : hasKey p2 k = hasKey params k := by
  unfold normalizeParams at h
  cases h1 : normalizeTimestampParam "start" normalizeStart params with
  | error e => rw [h1] at h; cases h
  | ok p1 =>
    rw [h1] at h
    calc hasKey p2 k = hasKey p1 k :=
          normalizeTimestampParam_hasKey "end" normalizeEnd p1 p2 k h
      _ = hasKey params k :=
          normalizeTimestampParam_hasKey "start" normalizeStart params p1 k h1

lemma normalizeParams_length (params p2 : List (String × String))
    (h : normalizeParams params = .ok p2) : p2.length = params.length := by
  unfold normalizeParams at h
  cases h1 : normalizeTimestampParam "start" normalizeStart params with
  | error e => rw [h1] at h; cases h
  | ok p1 =>
    rw [h1] at h
    calc p2.length = p1.length := normalizeTimestampParam_length "end" normalizeEnd p1 p2 h
      _ = params.length := normalizeTimestampParam_length "start" normalizeStart params p1 h1

/-- C1: timestamp normalization in `stations_observations` pads a
date-only start to T00:00:00Z, a date-only end to T23:59:59Z, replaces the
space of a space-separated date-time by T and appends Z, and passes any
value of length at least twenty through unchanged. -/
theorem stations_observations_timestamp_normalization (s : String)
    (h : 20 ≤ s.length) :
    normalizeStart "2020-01-01" = "2020-01-01T00:00:00Z" ∧
    normalizeEnd "2020-01-01" = "2020-01-01T23:59:59Z" ∧
    normalizeStart "2020-01-01 12:00:00" = "2020-01-01T12:00:00Z" ∧
    normalizeEnd "2020-01-01 12:00:00" = "2020-01-01T12:00:00Z" ∧
    normalizeStart s = s ∧ normalizeEnd s = s := by
  refine ⟨rfl, rfl, rfl, rfl, ?_, ?_⟩
  · unfold normalizeStart
    rw [if_neg (by omega), if_neg (by omega)]
  · unfold normalizeEnd
    rw [if_neg (by omega), if_neg (by omega)]

theorem stations_observations_timestamp_normalization_witness :
    20 ≤ ("2020-01-01T12:00:00Z").length ∧
    normalizeStart "2020-01-01T12:00:00Z" = "2020-01-01T12:00:00Z" :=
  ⟨by decide,
   (stations_observations_timestamp_normalization "2020-01-01T12:00:00Z" (by decide)).2.2.2.2.1⟩

/-- C6: whenever both `current` and `recordId` are present in the
parameter mapping, `stations_observations` with a non-empty station id
fails with the conflicting-parameters error, whatever the other
parameters are, and issues no request. -/
theorem stations_observations_conflicting_params (stationId : String)
    (params : List (String × String)) (fetch : String → Json)
    (hsid : stationId ≠ "")
    (hrec : hasKey params "recordId" = true)
    (hcur : hasKey params "current" = true) :
    stationsObservations stationId params fetch = (.error .conflictingParams, []) := by
  unfold stationsObservations
  rw [if_neg hsid, hrec, hcur]
  rfl

theorem stations_observations_conflicting_params_witness :
    stationsObservations "KNYC" [("current", "1"), ("recordId", "r"), ("limit", "5")]
      (fun _ => Json.null) = (.error .conflictingParams, []) :=
  stations_observations_conflicting_params "KNYC"
    [("current", "1"), ("recordId", "r"), ("limit", "5")] (fun _ => Json.null)
    (by decide) (by decide) (by decide)

/-- C8: `active_alerts` with `count=True` issues a GET for /alerts/count,
which is not the documented /alerts/active/count resource path. -/
theorem active_alerts_count_path (params : List (String × String))
    (fetch : String → Json) :
    (activeAlerts true params fetch).2 = ["/alerts/count"] ∧
    "/alerts/count" ≠ "/alerts/active/count" :=
  ⟨rfl, by decide⟩

lemma obsLoop_zero_eq_neg_one (params : List (String × String))
    (fetch : String → Json) (stations : List Json) :
    ∀ idx, obsLoop 0 params fetch stations idx = obsLoop (-1) params fetch stations idx := by
  induction stations with
  | nil => intro idx; rfl
  | cons st rest ih =>
    intro idx
    simp only [obsLoop]
    rw [if_neg (by omega), if_neg (by omega), ih (idx + 1)]

lemma obsRunInner_zero_eq_neg_one (params : List (String × String))
    (fetch : String → Json) (doc : Json) :
    obsRunInner params 0 fetch doc = obsRunInner params (-1) fetch doc := by
  simp only [obsRunInner, obsLoop_zero_eq_neg_one]

/-- C9: the observation stream with `num_of_stations = 0` behaves exactly
like the stream with a negative count, which enumerates every station:
the break test requires a strictly positive bound, so zero does not mean
zero stations. -/
theorem obs_stream_num_zero_enumerates_all (lat lon : ℚ)
    (start? end? : Option String) (fetch : String → Json) :
    getObservationsByLatLon lat lon start? end? 0 fetch =
    getObservationsByLatLon lat lon start? end? (-1) fetch := by
  simp only [getObservationsByLatLon, obsRunInner_zero_eq_neg_one]

/-- C7 (amended): on the observation path the coordinates are rounded to
four decimal places before being embedded in the points request path,
while `points_forecast` embeds the coordinates unrounded. -/
theorem points_path_rounding (lat lon : ℚ) (start? end? : Option String)
    (num : Int) (dts : List DType) (fetch : String → Json) :
    (getObservationsByLatLon lat lon start? end? num fetch).2.head? =
      some (obsPointsPath lat lon) ∧
    (pointsForecast lat lon dts fetch).2.head? = some (forecastPointsPath lat lon) ∧
    obsPointsPath lat lon =
      "/points/" ++ partsStr (round4Parts lat) ++ "," ++ partsStr (round4Parts lon) ∧
    forecastPointsPath lat lon =
      "/points/" ++ partsStr (ratParts lat) ++ "," ++ partsStr (ratParts lon) :=
  ⟨rfl, rfl, rfl, rfl⟩

/-- The exact rational one third, a coordinate whose four-decimal rounding
differs from the coordinate itself. -/
def qOneThird : ℚ := Rat.mk' 1 3 (by decide) (Nat.coprime_one_left 3)

theorem points_forecast_unrounded_cex :
    (pointsForecast qOneThird 0 [] (fun _ => Json.null)).2 = [forecastPointsPath qOneThird 0] ∧
    forecastPointsPath qOneThird 0 = "/points/1/3,0" ∧
    "/points/" ++ partsStr (round4Parts qOneThird) ++ "," ++ partsStr (round4Parts 0) =
      "/points/3333/10000,0" ∧
    forecastPointsPath qOneThird 0 ≠
      "/points/" ++ partsStr (round4Parts qOneThird) ++ "," ++ partsStr (round4Parts 0) :=
  ⟨rfl, rfl, rfl, by decide⟩

/-- The station prefix processed when the loop starts at `idx`; the
generalization of `processedStations` used for the loop induction. -/
def procFrom (num : Int) (idx : Nat) (stations : List Json) : List Json :=
  if 0 < num then stations.take (num.toNat - idx) else stations

lemma obsLoop_good (num : Int) (params : List (String × String))
    (fetch : String → Json) :
    ∀ (stations : List Json) (idx : Nat),
      (∀ st ∈ stations, exOk (stationStep params fetch st).1 = true) →
      obsLoop num params fetch stations idx =
        (.ok ((procFrom num idx stations).map (stepObs params fetch)).flatten,
         ((procFrom num idx stations).map (stepReqs params fetch)).flatten) := by
  intro stations
  induction stations with
  | nil =>
    intro idx h
    simp only [obsLoop, procFrom]
    split <;> simp
  | cons st rest ih =>
    intro idx h
    have hok := h st (List.mem_cons_self st rest)
    simp only [obsLoop]
    by_cases hbreak : 0 < num ∧ num ≤ (idx : Int)
    · rw [if_pos hbreak]
      have h0 : num.toNat - idx = 0 := by omega
      simp [procFrom, hbreak.1, h0]
    · rw [if_neg hbreak]
      cases hstep : stationStep params fetch st with
      | mk r reqs =>
        rw [hstep] at hok
        cases r with
        | error e => simp [exOk] at hok
        | ok records =>
          rw [ih (idx + 1) (fun s hs => h s (List.mem_cons_of_mem st hs))]
          have hobs : stepObs params fetch st = records := by simp [stepObs, hstep]
          have hreqs : stepReqs params fetch st = reqs := by simp [stepReqs, hstep]
          by_cases hpos : 0 < num
          · have harith : num.toNat - idx = (num.toNat - (idx + 1)) + 1 := by omega
            simp [procFrom, hpos, harith, hobs, hreqs]
          · simp [procFrom, hpos, hobs, hreqs]

/-- C2 (amended): under a well-formed station resolution, the observation
stream fetches observations for exactly the processed station prefix:
every station when `num_of_stations` is negative (and likewise when it is
zero), the first `num_of_stations` stations when it is positive; requests
are issued only for that prefix, so with `num_of_stations = 1` exactly one
station is fetched and no request is made for any subsequent station. -/
theorem obs_stream_num_of_stations (lat lon : ℚ) (start? end? : Option String)
    (num : Int) (fetch : String → Json) (props : Json) (stationsUri : String)
    (stations : List Json)
    (h1 : (fetch (obsPointsPath lat lon)).get? "properties" = some props)
    (h2 : props.get? "observationStations" = some (Json.str stationsUri))
    (h3 : (fetch stationsUri).get? "observationStations" = some (Json.arr stations))
    (hgood : ∀ st ∈ stations, exOk (stationStep (obsParams start? end?) fetch st).1 = true) :
    getObservationsByLatLon lat lon start? end? num fetch =
      (.ok ((processedStations num stations).map (stepObs (obsParams start? end?) fetch)).flatten,
       obsPointsPath lat lon :: stationsUri ::
         ((processedStations num stations).map (stepReqs (obsParams start? end?) fetch)).flatten) ∧
    (num = -1 → processedStations num stations = stations) ∧
    (num = 1 → processedStations num stations = stations.take 1) ∧
    (0 < num → processedStations num stations = stations.take num.toNat) ∧
    (num ≤ 0 → processedStations num stations = stations) := by
  have hmain : getObservationsByLatLon lat lon start? end? num fetch =
      (.ok ((processedStations num stations).map (stepObs (obsParams start? end?) fetch)).flatten,
       obsPointsPath lat lon :: stationsUri ::
         ((processedStations num stations).map (stepReqs (obsParams start? end?) fetch)).flatten) := by
    have hloop := obsLoop_good num (obsParams start? end?) fetch stations 0 hgood
    have hproc : procFrom num 0 stations = processedStations num stations := by
      simp [procFrom, processedStations]
    rw [hproc] at hloop
    simp only [getObservationsByLatLon, obsRunInner, h1, h2, h3, hloop]
  refine ⟨hmain, ?_, ?_, ?_, ?_⟩
  · intro hn; subst hn
    have hneg : ¬((0 : Int) < -1) := by omega
    simp [processedStations, hneg]
  · intro hn; subst hn
    have hpos : (0 : Int) < 1 := by omega
    simp [processedStations, hpos]
  · intro hn; simp [processedStations, hn]
  · intro hn
    have hnp : ¬(0 < num) := by omega
    simp [processedStations, hnp]

/-- Transport fixture with two observation stations, each answering with
one feature record. -/
def obsFixtureFetch : String → Json := fun p =>
  if p = "SU" then
    Json.obj [("observationStations",
      Json.arr [Json.str "https://x/ST1", Json.str "https://x/ST2"])]
  else if p = "/stations/ST1/observations" then
    Json.obj [("features", Json.arr [Json.obj [("properties", Json.str "rec1")]])]
  else if p = "/stations/ST2/observations" then
    Json.obj [("features", Json.arr [Json.obj [("properties", Json.str "rec2")]])]
  else Json.obj [("properties", Json.obj [("observationStations", Json.str "SU")])]

theorem obs_stream_num_of_stations_witness :
    getObservationsByLatLon 0 0 none none 1 obsFixtureFetch =
      (.ok [Json.str "rec1"], ["/points/0,0", "SU", "/stations/ST1/observations"]) := by
  have h := (obs_stream_num_of_stations 0 0 none none 1 obsFixtureFetch
    (Json.obj [("observationStations", Json.str "SU")]) "SU"
    [Json.str "https://x/ST1", Json.str "https://x/ST2"]
    rfl rfl rfl (by decide)).1
  exact h

/-- Transport fixture with a single observation station. -/
def obsZeroFetch : String → Json := fun p =>
  if p = "SU" then
    Json.obj [("observationStations", Json.arr [Json.str "https://x/STA"])]
  else if p = "/stations/STA/observations" then
    Json.obj [("features", Json.arr [Json.obj [("properties", Json.str "recA")]])]
  else Json.obj [("properties", Json.obj [("observationStations", Json.str "SU")])]

theorem obs_stream_num_zero_fetches_station_cex :
    getObservationsByLatLon 0 0 none none 0 obsZeroFetch =
      (.ok [Json.str "recA"], ["/points/0,0", "SU", "/stations/STA/observations"]) ∧
    (getObservationsByLatLon 0 0 none none 0 obsZeroFetch).1 ≠ Except.ok ([] : List Json) ∧
    (getObservationsByLatLon 0 0 none none 0 obsZeroFetch).2.length ≠ 2 := by
  refine ⟨rfl, ?_, by decide⟩
  intro h
  rw [show (getObservationsByLatLon 0 0 none none 0 obsZeroFetch).1 =
      Except.ok [Json.str "recA"] from rfl] at h
  exact absurd (Except.ok.inj h) (by simp)

/-- C5 (amended): a points document lacking `properties` makes the
observation path fail with the typed no-observation-stations error before
any further request, while the forecast path (`points_forecast`, and
therefore `get_forecasts`, for a non-empty data type list) fails with a
KeyError-style key lookup failure on `properties`, not with a schema
error. -/
theorem points_missing_properties_behavior (lat lon : ℚ)
    (start? end? : Option String) (num : Int) (dts : List DType)
    (fetch : String → Json)
    (hobs : (fetch (obsPointsPath lat lon)).get? "properties" = none)
    (hfc : (fetch (forecastPointsPath lat lon)).get? "properties" = none)
    (hne : dts ≠ []) :
    getObservationsByLatLon lat lon start? end? num fetch =
      (.error (.schemaError "Error: No Observation Stations found."),
       [obsPointsPath lat lon]) ∧
    resultIsSchemaError (getObservationsByLatLon lat lon start? end? num fetch).1 = true ∧
    (pointsForecast lat lon dts fetch).1 = .error (.keyError "properties") ∧
    (getForecasts (some (lat, lon)) dts fetch).1 = .error (.keyError "properties") ∧
    resultIsSchemaError (pointsForecast lat lon dts fetch).1 = false := by
  have hmain : getObservationsByLatLon lat lon start? end? num fetch =
      (.error (.schemaError "Error: No Observation Stations found."),
       [obsPointsPath lat lon]) := by
    simp only [getObservationsByLatLon, obsRunInner, hobs]
  obtain ⟨d, rest, hd⟩ : ∃ d rest, dts = d :: rest := by
    cases dts with
    | nil => exact absurd rfl hne
    | cons d rest => exact ⟨d, rest, rfl⟩
  have hpf : pointsForecast lat lon dts fetch =
      (.error (.keyError "properties"), [forecastPointsPath lat lon]) := by
    subst hd
    simp only [pointsForecast, pfLoop, hfc]
  have hgf : (getForecasts (some (lat, lon)) dts fetch).1 =
      .error (.keyError "properties") := by
    simp only [getForecasts, hpf]
  refine ⟨hmain, ?_, ?_, hgf, ?_⟩
  · rw [hmain]; rfl
  · rw [hpf]
  · rw [hpf]; rfl

theorem points_missing_properties_behavior_witness :
    getObservationsByLatLon 0 0 none none 1 (fun _ => Json.obj []) =
      (.error (.schemaError "Error: No Observation Stations found."), ["/points/0,0"]) ∧
    (pointsForecast 0 0 [DType.dflt] (fun _ => Json.obj [])).1 =
      .error (.keyError "properties") := by
  have h := points_missing_properties_behavior 0 0 none none 1 [DType.dflt]
    (fun _ => Json.obj []) rfl rfl (by decide)
  exact ⟨h.1, h.2.2.1⟩

/-- Counterexample input for the forecast side: every fetch answers with
an empty object, so the points document has no `properties` field. -/
def emptyObjFetch : String → Json := fun _ => Json.obj []

theorem points_missing_properties_cex :
    (pointsForecast 0 0 [DType.dflt] emptyObjFetch).1 = .error (.keyError "properties") ∧
    resultIsSchemaError (pointsForecast 0 0 [DType.dflt] emptyObjFetch).1 = false ∧
    (getForecasts (some (0, 0)) [DType.dflt] emptyObjFetch).1 = .error (.keyError "properties") ∧
    resultIsSchemaError (getForecasts (some (0, 0)) [DType.dflt] emptyObjFetch).1 = false :=
  ⟨rfl, rfl, rfl, rfl⟩

/-- C10: the return shape of `stations_observations` depends on the
parameters: with an empty mapping, and in the recordId and current modes,
the raw parsed document is returned unchanged with no `features` check;
with at least one ordinary parameter the response must carry `features`,
its absence raises, and the `features` list is returned. -/
theorem stations_observations_return_shape (stationId : String)
    (params p2 : List (String × String)) (fetch : String → Json)
    (hsid : stationId ≠ "") :
    (stationsObservations stationId [] fetch =
      (.ok (fetch ("/stations/" ++ stationId ++ "/observations")),
       ["/stations/" ++ stationId ++ "/observations"])) ∧
    (hasKey params "recordId" = true → hasKey params "current" = false →
      normalizeParams params = .ok p2 →
      stationsObservations stationId params fetch =
        (.ok (fetch ("/stations/" ++ stationId ++ "/observations/" ++ getValD p2 "recordId" "")),
         ["/stations/" ++ stationId ++ "/observations/" ++ getValD p2 "recordId" ""])) ∧
    (hasKey params "current" = true → hasKey params "recordId" = false →
      normalizeParams params = .ok p2 →
      stationsObservations stationId params fetch =
        (.ok (fetch ("/stations/" ++ stationId ++ "/observations/current")),
         ["/stations/" ++ stationId ++ "/observations/current"])) ∧
    (params ≠ [] → hasKey params "recordId" = false → hasKey params "current" = false →
      normalizeParams params = .ok p2 →
      stationsObservations stationId params fetch =
        (if (fetch (ordinaryObservationsUri stationId p2)).member "features" then
           (.ok (((fetch (ordinaryObservationsUri stationId p2)).get? "features").getD Json.null),
            [ordinaryObservationsUri stationId p2])
         else
           (.error (.responseError (fetch (ordinaryObservationsUri stationId p2))),
            [ordinaryObservationsUri stationId p2]))) := by
  refine ⟨?_, ?_, ?_, ?_⟩
  · unfold stationsObservations
    rw [if_neg hsid]
    rfl
  · intro hrec hcur hnorm
    have hr2 : hasKey p2 "recordId" = true := by
      rw [normalizeParams_hasKey params p2 "recordId" hnorm]; exact hrec
    have hlen : 0 < p2.length := hasKey_pos p2 "recordId" hr2
    unfold stationsObservations
    rw [if_neg hsid]
    simp [hrec, hcur, hnorm, hr2, hlen]
  · intro hcur hrec hnorm
    have hr2 : hasKey p2 "recordId" = false := by
      rw [normalizeParams_hasKey params p2 "recordId" hnorm]; exact hrec
    have hc2 : hasKey p2 "current" = true := by
      rw [normalizeParams_hasKey params p2 "current" hnorm]; exact hcur
    have hlen : 0 < p2.length := hasKey_pos p2 "current" hc2
    unfold stationsObservations
    rw [if_neg hsid]
    simp [hrec, hcur, hnorm, hr2, hc2, hlen]
  · intro hne hrec hcur hnorm
    have hr2 : hasKey p2 "recordId" = false := by
      rw [normalizeParams_hasKey params p2 "recordId" hnorm]; exact hrec
    have hc2 : hasKey p2 "current" = false := by
      rw [normalizeParams_hasKey params p2 "current" hnorm]; exact hcur
    have hlen : 0 < p2.length := by
      rw [normalizeParams_length params p2 hnorm]
      exact List.length_pos.mpr hne
    unfold stationsObservations
    rw [if_neg hsid]
    simp [hrec, hcur, hnorm, hr2, hc2, hlen]

theorem stations_observations_return_shape_witness :
    stationsObservations "KNYC" [] (fun p => Json.str p) =
      (.ok (Json.str "/stations/KNYC/observations"), ["/stations/KNYC/observations"]) :=
  (stations_observations_return_shape "KNYC" [] [] (fun p => Json.str p) (by decide)).1

lemma forecastValidate_ok :
    ∀ (pairs : List (DType × Json)) (out : List Json),
      forecastValidate pairs = .ok out →
      out = pairs.map (fun p => forecastProject p.1 p.2) ∧
      ∀ p ∈ pairs, passesValidation p.1 p.2 = true := by
  intro pairs
  induction pairs with
  | nil =>
    intro out h
    simp only [forecastValidate] at h
    injection h with h
    subst h
    simp
  | cons hd rest ih =>
    intro out h
    obtain ⟨dtype, res⟩ := hd
    simp only [forecastValidate] at h
    split at h
    · cases h
    · split at h
      · cases h
      · split at h
        · cases h
        · rename_i h503 hprop hper
          cases hrec : forecastValidate rest with
          | error e => rw [hrec] at h; cases h
          | ok others =>
            rw [hrec] at h
            injection h with h
            subst h
            obtain ⟨ho, hall⟩ := ih others hrec
            have b1 : status503 res = false := by
              revert h503; cases status503 res <;> simp
            have b2 : res.member "properties" = true := by
              revert hprop; cases res.member "properties" <;> simp
            have b3 : (propsHasPeriods res || decide (dtype = DType.grid)) = true := by
              by_cases hpp : propsHasPeriods res = true
              · simp [hpp]
              · have hpf : propsHasPeriods res = false := by
                  revert hpp; cases propsHasPeriods res <;> simp
                have hdg : dtype = DType.grid := by
                  by_contra hne
                  exact hper ⟨b2, hpf, hne⟩
                simp [hdg]
            refine ⟨by rw [ho]; rfl, ?_⟩
            intro p hp
            rcases List.mem_cons.mp hp with hph | hpt
            · subst hph
              simp [passesValidation, b1, b2, b3]
            · exact hall p hpt

lemma forecastValidate_append_503 :
    ∀ (pre : List (DType × Json)) (dtype : DType) (res : Json)
      (rest : List (DType × Json)),
      status503 res = true →
      (∀ p ∈ pre, passesValidation p.1 p.2 = true) →
      forecastValidate (pre ++ (dtype, res) :: rest) =
        .error (.upstreamError 503 ((res.get? "detail").getD Json.null)) := by
  intro pre
  induction pre with
  | nil =>
    intro dtype res rest h503 hpre
    simp only [List.nil_append, forecastValidate, if_pos h503]
  | cons hd tl ih =>
    intro dtype res rest h503 hpre
    obtain ⟨d0, r0⟩ := hd
    have hp := hpre (d0, r0) (List.mem_cons_self _ _)
    have htl : ∀ p ∈ tl, passesValidation p.1 p.2 = true :=
      fun p hm => hpre p (List.mem_cons_of_mem _ hm)
    simp only [passesValidation, Bool.and_eq_true, Bool.or_eq_true] at hp
    obtain ⟨⟨c1, c2⟩, c3⟩ := hp
    have c1f : status503 r0 = false := by
      revert c1; cases status503 r0 <;> simp
    have cne : ¬(r0.member "properties" = true ∧ propsHasPeriods r0 = false ∧
        d0 ≠ DType.grid) := by
      rintro ⟨-, hpf, hdg⟩
      rcases c3 with hper | hg
      · rw [hpf] at hper; cases hper
      · exact hdg (of_decide_eq_true hg)
    simp only [List.cons_append, forecastValidate]
    rw [if_neg (by simp [c1f]), if_neg (by simp [c2]), if_neg cne]
    simp only [List.append_eq]
    rw [ih dtype res rest h503 htl]

lemma pfLoop_ok_length (points : Json) (fetch : String → Json) :
    ∀ (dts : List DType) (results : List Json) (reqs : List String),
      pfLoop points fetch dts = (.ok results, reqs) →
      results.length = dts.length := by
  intro dts
  induction dts with
  | nil =>
    intro results reqs h
    simp only [pfLoop, Prod.mk.injEq] at h
    obtain ⟨h1, -⟩ := h
    injection h1 with h1
    rw [← h1]
    rfl
  | cons d rest ih =>
    intro results reqs h
    simp only [pfLoop] at h
    split at h
    · simp [Prod.mk.injEq] at h
    · split at h
      · simp [Prod.mk.injEq] at h
      · split at h
        · simp [Prod.mk.injEq] at h
        · split at h
          · rename_i heq
            simp only [Prod.mk.injEq] at h
            obtain ⟨h1, -⟩ := h
            cases h1
          · rename_i uri heq
            simp only [Prod.mk.injEq] at h
            obtain ⟨h1, -⟩ := h
            injection h1 with h1
            rw [← h1]
            simp only [List.length_cons]
            rw [ih _ _ heq]
        · simp [Prod.mk.injEq] at h

lemma pointsForecast_ok_length (lat lon : ℚ) (dts : List DType)
    (fetch : String → Json) (docs : List Json) (reqs : List String)
    (h : pointsForecast lat lon dts fetch = (.ok docs, reqs)) :
    docs.length = dts.length := by
  unfold pointsForecast at h
  simp only [Prod.mk.injEq] at h
  obtain ⟨h1, -⟩ := h
  have hfull : pfLoop (fetch (forecastPointsPath lat lon)) fetch dts =
      (.ok docs, (pfLoop (fetch (forecastPointsPath lat lon)) fetch dts).2) := by
    rw [← h1]
  exact pfLoop_ok_length (fetch (forecastPointsPath lat lon)) fetch dts docs _ hfull

/-- C3: whenever `get_forecasts` succeeds, the result list has exactly one
entry per requested data type, positionally aligned in request order, each
entry being the projection of the document fetched for that data type:
`properties` for grid, `properties.periods` otherwise. -/
theorem get_forecasts_length_order (lat lon : ℚ) (dts : List DType)
    (fetch : String → Json) (out : List Json) (reqs : List String)
    (h : getForecasts (some (lat, lon)) dts fetch = (.ok out, reqs)) :
    out.length = dts.length ∧
    ∃ docs, pointsForecast lat lon dts fetch = (.ok docs, reqs) ∧
      docs.length = dts.length ∧
      out = (dts.zip docs).map (fun p => forecastProject p.1 p.2) := by
  dsimp only [getForecasts] at h
  cases hpf : pointsForecast lat lon dts fetch with
  | mk r reqs2 =>
    rw [hpf] at h
    cases r with
    | error e => simp [Prod.mk.injEq] at h
    | ok docs =>
      simp only [Prod.mk.injEq] at h
      obtain ⟨hv, hr⟩ := h
      obtain ⟨hmap, hall⟩ := forecastValidate_ok (dts.zip docs) out hv
      have hdocs : docs.length = dts.length :=
        pointsForecast_ok_length lat lon dts fetch docs reqs2 hpf
      have hlen : out.length = dts.length := by
        rw [hmap, List.length_map, List.length_zip, hdocs, Nat.min_self]
      exact ⟨hlen, docs, by rw [hr], hdocs, hmap⟩

/-- Transport fixture serving a points document with all three forecast
links and period-carrying documents for the hourly and default links. -/
def forecastFixtureFetch : String → Json := fun p =>
  if p = "HU" then
    Json.obj [("properties", Json.obj [("periods", Json.arr [Json.str "h1"])])]
  else if p = "FU" then
    Json.obj [("properties", Json.obj [("periods", Json.arr [Json.str "f1"])])]
  else
    Json.obj [("properties", Json.obj
      [("forecast", Json.str "FU"), ("forecastHourly", Json.str "HU"),
       ("forecastGridData", Json.str "GU")])]

theorem get_forecasts_length_order_witness :
    ([Json.arr [Json.str "h1"], Json.arr [Json.str "f1"]] : List Json).length =
      ([DType.hourly, DType.dflt] : List DType).length ∧
    ∃ docs, pointsForecast 0 0 [DType.hourly, DType.dflt] forecastFixtureFetch =
        (.ok docs, ["/points/0,0", "HU", "FU"]) ∧
      docs.length = ([DType.hourly, DType.dflt] : List DType).length ∧
      [Json.arr [Json.str "h1"], Json.arr [Json.str "f1"]] =
        (([DType.hourly, DType.dflt]).zip docs).map (fun p => forecastProject p.1 p.2) :=
  get_forecasts_length_order 0 0 [DType.hourly, DType.dflt] forecastFixtureFetch
    [Json.arr [Json.str "h1"], Json.arr [Json.str "f1"]]
    ["/points/0,0", "HU", "FU"] rfl

/-- C4: when one of the fetched forecast documents carries the upstream
error marker (status 503 together with a detail field), `get_forecasts`
never returns results, and as soon as the validation loop reaches that
document (every earlier pair passing validation) it fails with the
upstream error carrying exactly status 503 and that document's detail. -/
theorem get_forecasts_upstream_503 (lat lon : ℚ) (dts : List DType)
    (fetch : String → Json) (docs : List Json) (reqs : List String)
    (dtype : DType) (res : Json)
    (hpf : pointsForecast lat lon dts fetch = (.ok docs, reqs))
    (hmem : (dtype, res) ∈ dts.zip docs)
    (h503 : status503 res = true) :
    (∀ out, (getForecasts (some (lat, lon)) dts fetch).1 ≠ .ok out) ∧
    (∀ pre rest, dts.zip docs = pre ++ (dtype, res) :: rest →
      (∀ p ∈ pre, passesValidation p.1 p.2 = true) →
      (getForecasts (some (lat, lon)) dts fetch).1 =
        .error (.upstreamError 503 ((res.get? "detail").getD Json.null))) := by
  have hgf : getForecasts (some (lat, lon)) dts fetch =
      (forecastValidate (dts.zip docs), reqs) := by
    dsimp only [getForecasts]
    rw [hpf]
  constructor
  · intro out hout
    rw [hgf] at hout
    obtain ⟨-, hall⟩ := forecastValidate_ok (dts.zip docs) out hout
    have hthis := hall (dtype, res) hmem
    simp [passesValidation, h503] at hthis
  · intro pre rest hsplit hpre
    rw [hgf]
    show forecastValidate (dts.zip docs) = _
    rw [hsplit]
    exact forecastValidate_append_503 pre dtype res rest h503 hpre

/-- Transport fixture whose forecast document is an upstream 503 error
marker. -/
def upstream503Fetch : String → Json := fun p =>
  if p = "FU" then Json.obj [("status", Json.num 503), ("detail", Json.str "oops")]
  else Json.obj [("properties", Json.obj [("forecast", Json.str "FU")])]

theorem get_forecasts_upstream_503_witness :
    (getForecasts (some (0, 0)) [DType.dflt] upstream503Fetch).1 =
      .error (.upstreamError 503 (Json.str "oops")) :=
  (get_forecasts_upstream_503 0 0 [DType.dflt] upstream503Fetch
    [Json.obj [("status", Json.num 503), ("detail", Json.str "oops")]]
    ["/points/0,0", "FU"] DType.dflt
    (Json.obj [("status", Json.num 503), ("detail", Json.str "oops")])
    rfl (List.mem_singleton.mpr rfl) rfl).2 [] [] rfl
    (fun p hp => absurd hp (List.not_mem_nil p))
